import Mathlib

/-!
A shallow embedding of the LXD container-migration core (`lxd/migrate.go`,
the wire schema `lxd/migration/migrate.proto`, and the snapshot-name helper
from the shared package) together with theorems settling the frozen claims
about it.

Modelling conventions:
* Go `error` values are `GoError`; `Option GoError` is `nil`-or-error.
* Websocket connections are identified by a `Nat` id; `Option Nat` models a
  possibly-`nil` `*websocket.Conn` field.
* External effects (dials, sends, receives, subprocesses) are resolved by an
  environment record supplied to the model of each `Do` function; the model
  returns the function's result together with a trace of the effects it
  performed, in order.
* Go `int64`/`int32` are `Int` with explicit reduction mod 2^32 where the
  code converts; Go maps that the code ranges over are association lists,
  the list order standing for the (unspecified) iteration order.
* The code targets pre-1.22 Go, where a `for` loop's iteration variables are
  a single variable per loop statement (the same file works around this with
  explicit `kCopy := string(k)` copies); taking the address of such a
  variable therefore aliases every iteration, and the model reflects that.
-/

namespace LXDMigration

/-- Go `error` values: the distinguished `os.ErrPermission` sentinel and
`fmt.Errorf`-produced message errors. -/
inductive GoError where
  | permission : GoError
  | errorf : String → GoError
deriving DecidableEq, Repr

/-- `enum MigrationFSType` from migrate.proto. -/
inductive MigrationFSType where
  | RSYNC : MigrationFSType
  | BTRFS : MigrationFSType
  | ZFS : MigrationFSType
deriving DecidableEq, Repr, Fintype

/-- `enum CRIUType` from migrate.proto. -/
inductive CRIUType where
  | CRIU_RSYNC : CRIUType
  | PHAUL : CRIUType
  | NONE : CRIUType
deriving DecidableEq, Repr

/-- `message Config` from migrate.proto. -/
structure MConfig where
  key : String
  value : String
deriving DecidableEq, Repr

/-- `message Device` from migrate.proto. -/
structure MDevice where
  name : String
  config : List MConfig
deriving DecidableEq, Repr

/-- `message Snapshot` from migrate.proto. -/
structure MSnapshot where
  name : String
  localConfig : List MConfig
  profiles : List String
  ephemeral : Bool
  localDevices : List MDevice
  architecture : Int
  stateful : Bool
deriving DecidableEq, Repr

/-- `message IDMapType` from migrate.proto: the wire form of one idmap
entry; the three id fields are `int32` on the wire. -/
structure IDMapType where
  isuid : Bool
  isgid : Bool
  hostid : Int
  nsid : Int
  maprange : Int
deriving DecidableEq, Repr

/-- `message MigrationHeader` from migrate.proto. -/
structure MigrationHeader where
  fs : MigrationFSType
  criu : Option CRIUType
  idmap : List IDMapType
  snapshotNames : List String
  snapshots : List MSnapshot
deriving DecidableEq, Repr

/-- `message MigrationControl` from migrate.proto (`message` defaulted to
`""` when absent). -/
structure MigrationControl where
  success : Bool
  message : String
deriving DecidableEq, Repr

/-- `idmap.IdmapEntry` (shared/idmap): in-memory entry with `int64` id
fields. -/
structure IdmapEntry where
  isuid : Bool
  isgid : Bool
  hostid : Int
  nsid : Int
  maprange : Int
deriving DecidableEq, Repr

/-! ### Go `int32(x)` narrowing and `int64(y)` widening (claim C10)

`migrationSourceWs.Do` builds each wire entry with `proto.Int32(int32(v))`
where `v` is `int64`; the sink rebuilds the entry with `int64(*field)`.
Go's `int32(v)` keeps the low 32 bits of `v`, two's complement signed;
`int64` of an `int32` is the identity on the represented value. -/

/-- Go conversion `int32(x)` of an `int64` value, as an `Int`: reduce mod
2^32 into the signed window [-2^31, 2^31). -/
def goInt32 (x : Int) : Int :=
  (x + 2147483648) % 4294967296 - 2147483648

/-- A value is representable in Go's `int32`. -/
def inInt32 (x : Int) : Prop :=
  -2147483648 ≤ x ∧ x < 2147483648

instance (x : Int) : Decidable (inInt32 x) := by
  unfold inInt32; infer_instance

/-- Source side, migrate.go lines 293-303: build the wire `IDMapType` from a
container `IdmapEntry`, narrowing each id field with `int32(...)`. -/
def idmapToWire (e : IdmapEntry) : IDMapType :=
  { isuid := e.isuid
    isgid := e.isgid
    hostid := goInt32 e.hostid
    nsid := goInt32 e.nsid
    maprange := goInt32 e.maprange }

/-- Sink side, migrate.go lines 667-675: rebuild an `IdmapEntry` from the
wire form, widening each field with `int64(...)` (the identity on the
represented value). -/
def idmapFromWire (w : IDMapType) : IdmapEntry :=
  { isuid := w.isuid
    isgid := w.isgid
    hostid := w.hostid
    nsid := w.nsid
    maprange := w.maprange }

/-! ### `shared.ExtractSnapshotName` (claim C9)

`SnapshotDelimiter = "/"`; `ExtractSnapshotName(name)` is
`strings.SplitN(name, "/", 2)[1]`.  `strings.SplitN(s, sep, 2)` yields
`[s]` when `sep` does not occur in `s`, else the part before the first
occurrence followed by everything after it; indexing `[1]` therefore
panics exactly when the delimiter is absent. -/

/-- `strings.SplitN(s, String(sep), 2)` for a one-character separator. -/
def goSplitN2 (s : String) (sep : Char) : List String :=
  let cs := s.toList
  if cs.contains sep then
    [⟨cs.takeWhile (· ≠ sep)⟩, ⟨(cs.dropWhile (· ≠ sep)).tail⟩]
  else
    [s]

/-- `shared.ExtractSnapshotName`; `none` models the index-out-of-range
panic of `strings.SplitN(name, "/", 2)[1]`. -/
def extractSnapshotName (name : String) : Option String :=
  (goSplitN2 name '/').get? 1

/-- `shared.IsSnapshot`: `strings.Contains(name, "/")`. -/
def isSnapshot (name : String) : Bool :=
  name.toList.contains '/'

/-- The source engine's snapshot-name list construction, migrate.go lines
313-317: `ExtractSnapshotName(snap.Name())` on every driver snapshot name;
`none` models a panic on any name lacking the delimiter. -/
def buildSnapshotNames : List String → Option (List String)
  | [] => some []
  | n :: rest =>
    match extractSnapshotName n, buildSnapshotNames rest with
    | some x, some xs => some (x :: xs)
    | _, _ => none

/-! ### `migrationSourceWs.Connect` (claims C3, C4)

migrate.go lines 176-210.  The handlers's state is the three secrets, the
`live` flag, and the three connection slots of `migrationFields`. -/

/-- The secret/connection state of `migrationSourceWs` that `Connect`
reads and writes. -/
structure SourceWsState where
  live : Bool
  controlSecret : String
  criuSecret : String
  fsSecret : String
  controlConn : Option Nat
  criuConn : Option Nat
  fsConn : Option Nat
deriving DecidableEq, Repr

/-- What one call to `Connect` did: the state after the call, the returned
error (`none` = `nil`), whether the websocket upgrade was performed, and
whether the `allConnected` gate fired. -/
structure ConnectResult where
  state : SourceWsState
  result : Option GoError
  upgraded : Bool
  fired : Bool
deriving DecidableEq, Repr

/-- `migrationSourceWs.Connect`, migrate.go lines 176-210.  `secret` is
`r.FormValue("secret")`; `upgrade` resolves
`shared.WebsocketUpgrader.Upgrade` to either an error or a fresh
connection.  The `switch` tries `controlSecret`, then `criuSecret`, then
`fsSecret`, in order; an unmatched non-empty secret yields
`os.ErrPermission` before any upgrade is attempted. -/
def connect (s : SourceWsState) (secret : String) (upgrade : Except GoError Nat) :
    ConnectResult :=
  if secret = "" then
    ⟨s, some (.errorf "missing secret"), false, false⟩
  else if secret = s.controlSecret then
    match upgrade with
    | .error e => ⟨s, some e, false, false⟩
    | .ok c =>
      let s1 := { s with controlConn := some c }
      ⟨s1, none, true,
        s1.controlConn.isSome && (!s1.live || s1.criuConn.isSome) && s1.fsConn.isSome⟩
  else if secret = s.criuSecret then
    match upgrade with
    | .error e => ⟨s, some e, false, false⟩
    | .ok c =>
      let s1 := { s with criuConn := some c }
      ⟨s1, none, true,
        s1.controlConn.isSome && (!s1.live || s1.criuConn.isSome) && s1.fsConn.isSome⟩
  else if secret = s.fsSecret then
    match upgrade with
    | .error e => ⟨s, some e, false, false⟩
    | .ok c =>
      let s1 := { s with fsConn := some c }
      ⟨s1, none, true,
        s1.controlConn.isSome && (!s1.live || s1.criuConn.isSome) && s1.fsConn.isSome⟩
  else
    ⟨s, some .permission, false, false⟩

/-! ### fs-type negotiation (claim C5)

Sink side, migrate.go lines 640-653: echo the local storage type, but if
the received header's type differs, substitute the rsync sink and echo
RSYNC.  Source side, lines 348-353: if the echoed type differs from ours,
switch to RSYNC and swap in `rsyncMigrationSource`. -/

/-- What the sink chose: the fs type echoed in its response header, and
whether `mySink` was replaced by `rsyncMigrationSink`. -/
structure SinkChoice where
  echoedFs : MigrationFSType
  usesRsyncSink : Bool
deriving DecidableEq, Repr

/-- Sink-side negotiation, migrate.go lines 641-653. -/
def sinkNegotiate (headerFs myType : MigrationFSType) : SinkChoice :=
  if headerFs ≠ myType then ⟨.RSYNC, true⟩ else ⟨myType, false⟩

/-- What the source chose: its fs type after seeing the echo, and whether
the driver was swapped for `rsyncMigrationSource`. -/
structure SourceChoice where
  finalType : MigrationFSType
  swappedToRsync : Bool
deriving DecidableEq, Repr

/-- Source-side negotiation, migrate.go lines 348-353. -/
def sourceNegotiate (myType echoedFs : MigrationFSType) : SourceChoice :=
  if echoedFs ≠ myType then ⟨.RSYNC, true⟩ else ⟨myType, false⟩

/-! ### `snapshotToProtobuf` and the sink's legacy snapshot fill (claim C8) -/

/-- The container data `snapshotToProtobuf` reads: name, local config and
devices (association lists standing for Go maps in iteration order),
profiles, architecture, ephemerality, statefulness. -/
structure ContainerDesc where
  name : String
  localConfig : List (String × String)
  profiles : List String
  localDevices : List (String × List (String × String))
  architecture : Int
  ephemeral : Bool
  stateful : Bool
deriving DecidableEq, Repr

/-- The config loop of `snapshotToProtobuf`, migrate.go lines 236-240: the
body copies `k`/`v` into fresh variables (`kCopy`, `vCopy`) before taking
their addresses, so each entry keeps its own key and value. -/
def protoConfig (cfg : List (String × String)) : List MConfig :=
  cfg.map fun kv => ⟨kv.1, kv.2⟩

/-- The devices loop of `snapshotToProtobuf`, migrate.go lines 242-252.
The inner props loop copies its keys and values, but the `Device` is built
with `Name: &name` where `name` is the loop variable of
`for name, d := range c.LocalDevices()`: pre-1.22 Go declares that
variable once per loop, so every device's `Name` pointer aliases it and,
once the loop is done, reads as the key of the last iteration. -/
def protoDevices (devs : List (String × List (String × String))) : List MDevice :=
  match (devs.map Prod.fst).getLast? with
  | none => []
  | some lastName => devs.map fun d => ⟨lastName, protoConfig d.2⟩

/-- `snapshotToProtobuf`, migrate.go lines 234-268: name is the part after
the first `/` of the container name (the whole name when there is no
delimiter, since `parts[len(parts)-1]` is total). -/
def snapshotToProtobuf (c : ContainerDesc) : MSnapshot :=
  { name := (goSplitN2 c.name '/').getLastD c.name
    localConfig := protoConfig c.localConfig
    profiles := c.profiles
    ephemeral := c.ephemeral
    localDevices := protoDevices c.localDevices
    architecture := c.architecture
    stateful := c.stateful }

/-- The sink's snapshot-descriptor selection, migrate.go lines 685-699.
When the two received lists have different lengths, one descriptor is
synthesised per entry of `snapshotNames` by `base := snapshotToProtobuf`
on the parent container and `base.Name = &name` — but `name` is the loop
variable of `for _, name := range header.SnapshotNames`, declared once per
loop in pre-1.22 Go, so every synthesised descriptor's name pointer
aliases it and reads as the **last** entry by the time the list is used.
When the lengths agree, the received descriptors are used unchanged. -/
def sinkSnapshots (parent : ContainerDesc) (snapshotNames : List String)
    (snapshots : List MSnapshot) : List MSnapshot :=
  if snapshotNames.length ≠ snapshots.length then
    match snapshotNames.getLast? with
    | none => []
    | some lastName =>
      snapshotNames.map fun _ => { snapshotToProtobuf parent with name := lastName }
  else
    snapshots

/-- The synthesis the spec describes (each descriptor carrying its own
entry of `snapshotNames`), for comparison with `sinkSnapshots`. -/
def sinkSnapshotsSpec (parent : ContainerDesc) (snapshotNames : List String)
    (snapshots : List MSnapshot) : List MSnapshot :=
  if snapshotNames.length ≠ snapshots.length then
    snapshotNames.map fun n => { snapshotToProtobuf parent with name := n }
  else
    snapshots

/-! ### `migrationSourceWs.Do` (claims C2, C6, C7)

migrate.go lines 270-542.  External effects are resolved by a `SourceEnv`;
the model returns the function's result together with the ordered trace of
effects it performed.  `none` as the overall result models the
`ExtractSnapshotName` panic (claim C9). -/

/-- One observable effect of the source engine. -/
inductive SEvent where
  | storageStart : SEvent
  | storageStop : SEvent
  | sendHeader : MigrationHeader → SEvent
  | sendControl : Option GoError → SEvent
  | sendWhileRunning : SEvent
  | cleanup : SEvent
  | migrateDump : SEvent
  | rsyncSendCheckpoint : SEvent
  | sendAfterCheckpoint : SEvent
  | disconnect : SEvent
deriving DecidableEq, Repr

/-- Environment resolving every external call `migrationSourceWs.Do`
makes, in program order. `dumpFirst = some r` means the `select` at lines
475-482 took the `dumpSuccess` branch with result `r`; `none` means
`dumpDone` fired first. -/
structure SourceEnv where
  live : Bool
  myType : MigrationFSType
  storageStartErr : Option GoError
  idmapErr : Option GoError
  idmapset : Option (List IdmapEntry)
  migrationSourceErr : Option GoError
  driverSnapshots : List ContainerDesc
  sendHeaderErr : Option GoError
  recvHeaderErr : Option GoError
  echoHeader : MigrationHeader
  sendWhileRunningErr : Option GoError
  tempDirErr : Option GoError
  liblxcNew : Bool
  actionSecretErr : Option GoError
  opCreateErr : Option GoError
  writeScriptErr : Option GoError
  opRunErr : Option GoError
  dumpFirst : Option (Option GoError)
  oldDumpErr : Option GoError
  rsyncSendErr : Option GoError
  sendAfterCheckpointErr : Option GoError
  recvFinalErr : Option GoError
  finalMsg : MigrationControl
deriving Repr

/-- Result and effect trace of one completed run of the source `Do`. -/
structure SourceOutcome where
  result : Option GoError
  trace : List SEvent
deriving DecidableEq, Repr

/-- The `abort` closure, migrate.go lines 362-366: `driver.Cleanup()`,
`sendControl(err)`, return `err`. -/
def abortSrc (pre : List SEvent) (e : Option GoError) : SourceOutcome :=
  ⟨e, pre ++ [.cleanup, .sendControl e]⟩

/-- The checkpoint phase of the live branch, lines 387-498: either the
action-script orchestration (new liblxc) or the synchronous dump (old
liblxc).  Returns the continuation trace, or the early-returned outcome. -/
def dumpPhase (env : SourceEnv) (pre : List SEvent) :
    Except SourceOutcome (List SEvent) :=
  if env.liblxcNew then
    match env.actionSecretErr with
    | some e => .error (abortSrc pre (some e))
    | none =>
    match env.opCreateErr with
    | some e => .error (abortSrc pre (some e))
    | none =>
    match env.writeScriptErr with
    | some e => .error (abortSrc pre (some e))
    | none =>
    match env.opRunErr with
    | some e => .error (abortSrc pre (some e))
    | none =>
    match env.dumpFirst with
    | some r => .error (abortSrc (pre ++ [.migrateDump]) r)
    | none => .ok (pre ++ [.migrateDump])
  else
    match env.oldDumpErr with
    | some e => .error (abortSrc (pre ++ [.migrateDump]) (some e))
    | none => .ok (pre ++ [.migrateDump])

/-- The live branch, migrate.go lines 375-518: criu-type agreement checks,
checkpoint directory, dump phase, checkpoint-image rsync, post-checkpoint
filesystem delta. -/
def livePhase (env : SourceEnv) (pre : List SEvent) :
    Except SourceOutcome (List SEvent) :=
  match env.echoHeader.criu with
  | none => .error (abortSrc pre
      (some (.errorf "Got no CRIU socket type for live migration")))
  | some ct =>
    if ct = CRIUType.CRIU_RSYNC then
      match env.tempDirErr with
      | some e => .error (abortSrc pre (some e))
      | none =>
        match dumpPhase env pre with
        | .error o => .error o
        | .ok tr =>
          match env.rsyncSendErr with
          | some e => .error (abortSrc tr (some e))
          | none =>
            match env.sendAfterCheckpointErr with
            | some e => .error (abortSrc (tr ++ [.rsyncSendCheckpoint]) (some e))
            | none => .ok (tr ++ [.rsyncSendCheckpoint, .sendAfterCheckpoint])
    else
      .error (abortSrc pre (some (.errorf "Formats other than criu rsync not understood")))

/-- The tail of `Do`, migrate.go lines 520-541: the unconditional
`driver.Cleanup()`, the final `MigrationControl` receive, and the
success/failure return. -/
def finishPhase (env : SourceEnv) (tr : List SEvent) : SourceOutcome :=
  match env.recvFinalErr with
  | some e => ⟨some e, tr ++ [.cleanup, .disconnect]⟩
  | none =>
    if env.finalMsg.success then ⟨none, tr ++ [.cleanup]⟩
    else ⟨some (.errorf env.finalMsg.message), tr ++ [.cleanup]⟩

/-- `migrationSourceWs.Do` after the storage-start prologue, migrate.go
lines 285-541.  `none` models the `ExtractSnapshotName` panic while
building the header's snapshot-name list. -/
def doSourceBody (env : SourceEnv) : Option SourceOutcome :=
  let criuType : Option CRIUType := if env.live then some .CRIU_RSYNC else none
  match env.idmapErr with
  | some e => some ⟨some e, []⟩
  | none =>
    let idmaps := (env.idmapset.getD []).map idmapToWire
    let snaps? : Option (List MSnapshot × List String) :=
      if env.migrationSourceErr = none then
        match buildSnapshotNames (env.driverSnapshots.map ContainerDesc.name) with
        | none => none
        | some names => some (env.driverSnapshots.map snapshotToProtobuf, names)
      else some ([], [])
    match snaps? with
    | none => none
    | some (snapshots, snapshotNames) =>
      let header : MigrationHeader :=
        ⟨env.myType, criuType, idmaps, snapshotNames, snapshots⟩
      match env.sendHeaderErr with
      | some e => some ⟨some e, [.sendHeader header, .sendControl (some e)]⟩
      | none =>
        match env.migrationSourceErr with
        | some e => some ⟨some e, [.sendHeader header, .sendControl (some e)]⟩
        | none =>
          match env.recvHeaderErr with
          | some e => some ⟨some e, [.sendHeader header, .sendControl (some e)]⟩
          | none =>
            -- lines 348-353: `sourceNegotiate env.myType env.echoHeader.fs`
            -- fixes the driver used from here on; the swap has no further
            -- effect on the trace shape.
            match env.sendWhileRunningErr with
            | some e => some (abortSrc [.sendHeader header] (some e))
            | none =>
              let pre : List SEvent := [.sendHeader header, .sendWhileRunning]
              if env.live then
                match livePhase env pre with
                | .error o => some o
                | .ok tr => some (finishPhase env tr)
              else
                some (finishPhase env pre)

/-- `migrationSourceWs.Do`, migrate.go lines 270-542: if the migration is
not live the storage is started first (an error there returns at once) and
the deferred `StorageStop` runs on every later exit path. -/
def doSource (env : SourceEnv) : Option SourceOutcome :=
  if env.live then
    doSourceBody env
  else
    match env.storageStartErr with
    | some e => some ⟨some e, []⟩
    | none =>
      (doSourceBody env).map fun o => ⟨o.result, .storageStart :: o.trace ++ [.storageStop]⟩

/-! ### `migrationSink.Do` (claim C1)

migrate.go lines 602-793.  The three dials, the header receive, the echo
send, and then the `select` loop over the in-process `restore` channel and
the source's control channel.  The loop's interleaving is resolved by a
list of `SinkLoopEvent`s; an empty remainder means the loop is still
blocked (`doSink` returns `none`). -/

/-- Which statement returned from the sink `Do`. -/
inductive SinkExit where
  | dialControl : SinkExit
  | dialFs : SinkExit
  | dialCriu : SinkExit
  | recvHeader : SinkExit
  | sendResp : SinkExit
  | restoreDone : SinkExit
  | sourceClosed : SinkExit
  | sourceFailed : SinkExit
  | templateApply : SinkExit
deriving DecidableEq, Repr

/-- One arrival in the sink's `select` loop, migrate.go lines 761-792: the
`restore` channel's single value, or one read from the source's control
channel (`sourceClosed` = the channel closed; a success message triggers
`TemplateApply("copy")`, whose error is carried alongside). -/
inductive SinkLoopEvent where
  | restoreDone : Option GoError → SinkLoopEvent
  | sourceClosed : SinkLoopEvent
  | sourceMsg : Bool → String → Option GoError → SinkLoopEvent
deriving DecidableEq, Repr

/-- What one completed run of the sink `Do` did: its returned error,
whether `c.src.container.Delete()` was called, the `success` flag of the
`MigrationControl` sent on the return path (if one was sent), and which
statement returned. -/
structure SinkOutcome where
  result : Option GoError
  deleted : Bool
  announced : Option Bool
  exit : SinkExit
deriving DecidableEq, Repr

/-- Environment resolving the sink `Do`'s external calls in program
order.  `header` is the received opening header; the echoed response is
`sinkNegotiate header.fs myType` (lines 640-653) and `sendRespErr` is the
result of sending it. -/
structure SinkEnv where
  live : Bool
  dialControlErr : Option GoError
  dialFsErr : Option GoError
  dialCriuErr : Option GoError
  recvHeaderErr : Option GoError
  header : MigrationHeader
  myType : MigrationFSType
  sendRespErr : Option GoError
  loopEvents : List SinkLoopEvent
deriving Repr

/-- The sink's `for`/`select` loop, migrate.go lines 761-792. -/
def sinkLoop : List SinkLoopEvent → Option SinkOutcome
  | [] => none
  | .restoreDone (some e) :: _ =>
      -- lines 763-768: sendControl(err); Delete; return err
      some ⟨some e, true, some false, .restoreDone⟩
  | .restoreDone none :: _ =>
      -- lines 763-769: sendControl(nil); return nil
      some ⟨none, false, some true, .restoreDone⟩
  | .sourceClosed :: _ =>
      -- lines 771-775: disconnect; Delete; return errorf
      some ⟨some (.errorf "Got error reading source"), true, none, .sourceClosed⟩
  | .sourceMsg false m _ :: _ =>
      -- lines 776-779: disconnect; Delete; return errorf(*msg.Message)
      some ⟨some (.errorf m), true, none, .sourceFailed⟩
  | .sourceMsg true _ (some e) :: _ =>
      -- lines 785-789: TemplateApply failed; Delete; return err
      some ⟨some e, true, none, .templateApply⟩
  | .sourceMsg true _ none :: rest =>
      -- TemplateApply succeeded; keep looping
      sinkLoop rest

/-- `migrationSink.Do`, migrate.go lines 602-793. -/
def doSink (env : SinkEnv) : Option SinkOutcome :=
  match env.dialControlErr with
  | some e =>
      -- lines 605-609: Delete; return err (no control channel to announce on)
      some ⟨some e, true, none, .dialControl⟩
  | none =>
  match env.dialFsErr with
  | some e =>
      -- lines 612-617: Delete; sendControl(err); return err
      some ⟨some e, true, some false, .dialFs⟩
  | none =>
  match (if env.live then env.dialCriuErr else none) with
  | some e =>
      -- lines 619-626: Delete; sendControl(err); return err
      some ⟨some e, true, some false, .dialCriu⟩
  | none =>
  match env.recvHeaderErr with
  | some e =>
      -- lines 628-633: Delete; sendControl(err); return err
      some ⟨some e, true, some false, .recvHeader⟩
  | none =>
  -- lines 640-655: the echoed response is `sinkNegotiate env.header.fs env.myType`
  match env.sendRespErr with
  | some e =>
      -- lines 655-660: Delete; sendControl(err); return err
      some ⟨some e, true, some false, .sendResp⟩
  | none => sinkLoop env.loopEvents

/-! ### Concrete data used to evaluate the models on explicit inputs -/

/-- A parent container as the sink sees it: name, one config key, one
profile, one device. -/
def parentCtr : ContainerDesc :=
  { name := "alpha"
    localConfig := [("volatile.base_image", "abcd")]
    profiles := ["default"]
    localDevices := [("root", [("path", "/")])]
    architecture := 2
    ephemeral := false
    stateful := false }

/-- A snapshot container (as returned by `driver.Snapshots()`), named with
the `/` delimiter. -/
def snapCtr : ContainerDesc :=
  { name := "alpha/s1"
    localConfig := []
    profiles := ["default"]
    localDevices := []
    architecture := 2
    ephemeral := false
    stateful := false }

/-- A live `migrationSourceWs` state with all three channels bound. -/
def wsLive : SourceWsState :=
  { live := true
    controlSecret := "ctl"
    criuSecret := "cri"
    fsSecret := "fsx"
    controlConn := some 1
    criuConn := some 2
    fsConn := some 3 }

/-- A non-live source `Do` environment in which every external call
succeeds. -/
def srcEnvOk : SourceEnv :=
  { live := false
    myType := .ZFS
    storageStartErr := none
    idmapErr := none
    idmapset := some [⟨true, false, 100000, 0, 65536⟩]
    migrationSourceErr := none
    driverSnapshots := [snapCtr]
    sendHeaderErr := none
    recvHeaderErr := none
    echoHeader := ⟨.ZFS, none, [], [], []⟩
    sendWhileRunningErr := none
    tempDirErr := none
    liblxcNew := true
    actionSecretErr := none
    opCreateErr := none
    writeScriptErr := none
    opRunErr := none
    dumpFirst := none
    oldDumpErr := none
    rsyncSendErr := none
    sendAfterCheckpointErr := none
    recvFinalErr := none
    finalMsg := ⟨true, ""⟩ }

/-- A sink `Do` environment in which every step succeeds and the restore
pipeline reports success. -/
def sinkEnvOk : SinkEnv :=
  { live := false
    dialControlErr := none
    dialFsErr := none
    dialCriuErr := none
    recvHeaderErr := none
    header := ⟨.ZFS, none, [], [], []⟩
    myType := .ZFS
    sendRespErr := none
    loopEvents := [.restoreDone none] }

/-- `sinkEnvOk` with the control-channel dial failing. -/
def sinkEnvCx : SinkEnv :=
  { sinkEnvOk with dialControlErr := some (.errorf "connection refused") }

/-- `srcEnvOk` with the opening header send failing (after the storage
driver was successfully obtained). -/
def srcEnvHdrFail : SourceEnv :=
  { srcEnvOk with sendHeaderErr := some (.errorf "broken pipe") }

/-- `srcEnvOk` with no snapshots (so the header builds trivially). -/
def srcEnvNoSnaps : SourceEnv :=
  { srcEnvOk with driverSnapshots := [] }

/-! ## Theorems -/

/-! ### Helper lemmas -/

lemma goInt32_eq_self_iff (x : Int) : goInt32 x = x ↔ inInt32 x := by
  unfold goInt32 inInt32
  omega

lemma extract_isSome (name : String) :
    (extractSnapshotName name).isSome = isSnapshot name := by
  by_cases h : '/' ∈ name.data <;>
    simp [extractSnapshotName, goSplitN2, isSnapshot, h]

lemma extract_eq_none (name : String) :
    extractSnapshotName name = none ↔ isSnapshot name = false := by
  by_cases h : '/' ∈ name.data <;>
    simp [extractSnapshotName, goSplitN2, isSnapshot, h]

lemma buildSnapshotNames_isSome : ∀ l : List String,
    (buildSnapshotNames l).isSome ↔ ∀ n ∈ l, isSnapshot n = true
  | [] => by simp [buildSnapshotNames]
  | a :: l => by
    have ih := buildSnapshotNames_isSome l
    cases h1 : extractSnapshotName a with
    | none =>
      have ha : isSnapshot a = false := (extract_eq_none a).1 h1
      cases h2 : buildSnapshotNames l <;>
        simp [buildSnapshotNames, h1, h2, ha, List.forall_mem_cons]
    | some x =>
      have ha : isSnapshot a = true := by
        have hs := extract_isSome a
        rw [h1] at hs
        simpa using hs.symm
      cases h2 : buildSnapshotNames l with
      | none =>
        rw [h2] at ih
        simp only [Option.isSome_none, Bool.false_eq_true, false_iff] at ih
        simp only [buildSnapshotNames, h1, h2, Option.isSome_none, Bool.false_eq_true,
          false_iff, List.forall_mem_cons]
        exact fun hc => ih hc.2
      | some xs =>
        rw [h2] at ih
        simp only [Option.isSome_some, true_iff] at ih
        simp only [buildSnapshotNames, h1, h2, Option.isSome_some, true_iff,
          List.forall_mem_cons]
        exact ⟨ha, ih⟩

/-- `doSourceBody` diverges by the modelled panic exactly when the idmap
was read, the driver was obtained, and some snapshot name lacks the
delimiter. -/
lemma doSourceBody_eq_none (env : SourceEnv) :
    doSourceBody env = none ↔
      env.idmapErr = none ∧ env.migrationSourceErr = none ∧
        buildSnapshotNames (env.driverSnapshots.map ContainerDesc.name) = none := by
  unfold doSourceBody
  rcases hi : env.idmapErr with _ | e0 <;>
  rcases hm : env.migrationSourceErr with _ | e1 <;>
  rcases h3 : env.sendHeaderErr with _ | e3 <;>
  rcases h4 : env.recvHeaderErr with _ | e4 <;>
  rcases h5 : env.sendWhileRunningErr with _ | e5 <;>
  cases h6 : env.live <;>
  rcases hb : buildSnapshotNames (env.driverSnapshots.map ContainerDesc.name)
    with _ | names <;>
  simp only [hi, hm, h3, h4, h5, h6, hb, reduceIte] <;>
  (repeat' split) <;>
  simp_all

/-! ### Claim C10 — IDMap entries cross the wire as 32-bit integers -/

/-- C10: the source narrows each 64-bit `Hostid`, `Nsid` and `Maprange` to
`int32` when building the header and the sink widens them back to `int64`,
so the round-trip preserves an entry exactly iff each value is
representable in 32 bits; out-of-range values arrive reduced modulo 2^32,
sign-extended into [-2^31, 2^31). -/
theorem idmap_wire_roundtrip (e : IdmapEntry) :
    (idmapFromWire (idmapToWire e) = e ↔
      inInt32 e.hostid ∧ inInt32 e.nsid ∧ inInt32 e.maprange)
    ∧ inInt32 (idmapToWire e).hostid
    ∧ inInt32 (idmapToWire e).nsid
    ∧ inInt32 (idmapToWire e).maprange
    ∧ (idmapToWire e).hostid % 4294967296 = e.hostid % 4294967296
    ∧ (idmapToWire e).nsid % 4294967296 = e.nsid % 4294967296
    ∧ (idmapToWire e).maprange % 4294967296 = e.maprange % 4294967296
    ∧ (idmapFromWire (idmapToWire e)).isuid = e.isuid
    ∧ (idmapFromWire (idmapToWire e)).isgid = e.isgid := by
  obtain ⟨u, g, h, n, m⟩ := e
  simp only [idmapToWire, idmapFromWire, inInt32, goInt32, IdmapEntry.mk.injEq,
    eq_self_iff_true, true_and, and_true]
  omega

/-! ### Claim C9 — `ExtractSnapshotName` is partial -/

/-- C9: `ExtractSnapshotName` panics (returns `none` in the model) exactly
on names lacking the `/` delimiter; the source engine's snapshot-name list
is built without panicking iff every driver snapshot name contains the
delimiter, and the source `Do` panics exactly when it reaches that list
construction with a delimiter-free name. -/
theorem extractSnapshotName_panics :
    (∀ name : String,
        extractSnapshotName name = none ↔ isSnapshot name = false)
    ∧ (∀ snaps : List String,
        (buildSnapshotNames snaps).isSome ↔ ∀ n ∈ snaps, isSnapshot n = true)
    ∧ (∀ env : SourceEnv,
        doSource env = none ↔
          (env.live = true ∨ env.storageStartErr = none) ∧
            env.idmapErr = none ∧ env.migrationSourceErr = none ∧
            buildSnapshotNames (env.driverSnapshots.map ContainerDesc.name) = none) := by
  refine ⟨extract_eq_none, buildSnapshotNames_isSome, ?_⟩
  intro env
  unfold doSource
  cases h6 : env.live
  · rcases hs : env.storageStartErr with _ | e
    · simp [hs, h6, Option.map_eq_none', doSourceBody_eq_none]
    · simp [hs, h6]
  · simp [h6, doSourceBody_eq_none]

/-! ### Claim C5 — fs-type mismatch renegotiates both sides to rsync -/

/-- C5: when the two storage types differ, the sink echoes `fs=RSYNC` and
selects the rsync sink; the source, seeing an echoed type different from
its own, switches to RSYNC and swaps in the rsync source driver, ending
with the RSYNC type; and renegotiating the settled RSYNC/RSYNC pair is a
no-op (no further round-trips are needed). -/
theorem fs_fallback_both_rsync (srcT snkT : MigrationFSType) (h : srcT ≠ snkT) :
    sinkNegotiate srcT snkT = ⟨.RSYNC, true⟩
    ∧ (∀ echoed, echoed ≠ srcT → sourceNegotiate srcT echoed = ⟨.RSYNC, true⟩)
    ∧ (sourceNegotiate srcT (sinkNegotiate srcT snkT).echoedFs).finalType = .RSYNC
    ∧ sinkNegotiate .RSYNC .RSYNC = ⟨.RSYNC, false⟩
    ∧ sourceNegotiate .RSYNC .RSYNC = ⟨.RSYNC, false⟩ := by
  revert h
  revert snkT
  revert srcT
  decide

/-- Witness for `fs_fallback_both_rsync` at the concrete pair ZFS/BTRFS. -/
theorem fs_fallback_both_rsync_witness :
    sinkNegotiate MigrationFSType.ZFS MigrationFSType.BTRFS = ⟨.RSYNC, true⟩ :=
  (fs_fallback_both_rsync .ZFS .BTRFS (by decide)).1

/-! ### Claim C4 — unknown secret is rejected with Permission -/

/-- C4 (amended): a **non-empty** secret equal to none of the three
secrets makes `Connect` return `os.ErrPermission` with no upgrade, no
state change and no gate firing.  (The empty secret is rejected earlier
with a different error — see the counterexample.) -/
theorem connect_unknown_secret (s : SourceWsState) (secret : String)
    (up : Except GoError Nat)
    (h0 : secret ≠ "") (h1 : secret ≠ s.controlSecret)
    (h2 : secret ≠ s.criuSecret) (h3 : secret ≠ s.fsSecret) :
    connect s secret up = ⟨s, some .permission, false, false⟩ := by
  simp [connect, h0, h1, h2, h3]

/-- Witness for `connect_unknown_secret` on a concrete live state. -/
theorem connect_unknown_secret_witness :
    connect wsLive "zzz" (.ok 7) = ⟨wsLive, some .permission, false, false⟩ :=
  connect_unknown_secret wsLive "zzz" (.ok 7) (by decide) (by decide) (by decide)
    (by decide)

/-- C4 counterexample: the empty secret equals none of a live operation's
three (non-empty) secrets, yet `Connect` returns the `missing secret`
error, not `os.ErrPermission`. -/
theorem connect_empty_secret_not_permission :
    connect wsLive "" (.ok 7) = ⟨wsLive, some (.errorf "missing secret"), false, false⟩
    ∧ (connect wsLive "" (.ok 7)).result ≠ some GoError.permission
    ∧ "" ≠ wsLive.controlSecret ∧ "" ≠ wsLive.criuSecret ∧ "" ≠ wsLive.fsSecret := by
  decide

/-! ### Claim C3 — a second use of the same secret is NOT rejected -/

/-- C3 counterexample: on a live state whose control channel is already
bound (`controlConn = some 1`), a second `Connect` with the control secret
succeeds (`nil`, upgrade performed) and rebinds the slot to the new
connection — it is not rejected with Permission and the first connection
does not remain bound. -/
theorem connect_reused_secret_cx :
    connect wsLive "ctl" (.ok 9) =
      ⟨{ wsLive with controlConn := some 9 }, none, true, true⟩
    ∧ (connect wsLive "ctl" (.ok 9)).result ≠ some GoError.permission
    ∧ wsLive.controlConn = some 1
    ∧ (connect wsLive "ctl" (.ok 9)).state.controlConn ≠ wsLive.controlConn := by
  decide

/-- C3 (amended): `Connect` performs no single-use check: whenever the
secret matches a role (in the switch order control, criu, fs) and the
upgrade succeeds, it returns `nil` and stores the new connection in that
role's slot, regardless of any previously bound connection. -/
theorem connect_reused_secret_rebinds (s : SourceWsState) (secret : String) (c : Nat)
    (h0 : secret ≠ "") :
    (secret = s.controlSecret →
      connect s secret (.ok c) =
        ⟨{ s with controlConn := some c }, none, true,
          (!s.live || s.criuConn.isSome) && s.fsConn.isSome⟩)
    ∧ (secret ≠ s.controlSecret → secret = s.criuSecret →
      connect s secret (.ok c) =
        ⟨{ s with criuConn := some c }, none, true,
          s.controlConn.isSome && s.fsConn.isSome⟩)
    ∧ (secret ≠ s.controlSecret → secret ≠ s.criuSecret → secret = s.fsSecret →
      connect s secret (.ok c) =
        ⟨{ s with fsConn := some c }, none, true,
          s.controlConn.isSome && (!s.live || s.criuConn.isSome)⟩) := by
  refine ⟨fun h1 => ?_, fun h1 h2 => ?_, fun h1 h2 h3 => ?_⟩
  · subst h1; simp [connect, h0]
  · subst h2; simp [connect, h0, h1]
  · subst h3; simp [connect, h0, h1, h2]

/-- Witness for `connect_reused_secret_rebinds` on the concrete live state
with all channels already bound. -/
theorem connect_reused_secret_rebinds_witness :
    connect wsLive "ctl" (.ok 9) =
      ⟨{ wsLive with controlConn := some 9 }, none, true,
        (!wsLive.live || wsLive.criuConn.isSome) && wsLive.fsConn.isSome⟩ :=
  (connect_reused_secret_rebinds wsLive "ctl" 9 (by decide)).1 (by decide)

/-! ### Claim C8 — the legacy snapshot fill names every descriptor after
the last entry (pre-1.22 Go loop-variable aliasing) -/

/-- C8: when the received lists' lengths differ, the sink synthesises one
descriptor per `snapshotNames` entry from the parent container's
descriptor — but `base.Name = &name` aliases the loop variable, so every
synthesised descriptor carries the **last** entry's name, not its own
(the per-entry naming the claim describes is `sinkSnapshotsSpec`); when
the lengths agree the received descriptors are used unchanged. -/
theorem sink_legacy_snapshot_fill :
    sinkSnapshots parentCtr ["s1", "s2"] [] =
      [{ snapshotToProtobuf parentCtr with name := "s2" },
       { snapshotToProtobuf parentCtr with name := "s2" }]
    ∧ sinkSnapshotsSpec parentCtr ["s1", "s2"] [] =
      [{ snapshotToProtobuf parentCtr with name := "s1" },
       { snapshotToProtobuf parentCtr with name := "s2" }]
    ∧ sinkSnapshots parentCtr ["s1", "s2"] [] ≠ sinkSnapshotsSpec parentCtr ["s1", "s2"] []
    ∧ (∀ (parent : ContainerDesc) (names : List String) (snaps : List MSnapshot),
        names.length = snaps.length → sinkSnapshots parent names snaps = snaps) := by
  refine ⟨by decide, by decide, by decide, ?_⟩
  intro parent names snaps h
  simp [sinkSnapshots, h]

/-- Witness for the equal-length branch of `sink_legacy_snapshot_fill`. -/
theorem sink_legacy_snapshot_fill_witness :
    sinkSnapshots parentCtr ["s1"] [snapshotToProtobuf snapCtr] =
      [snapshotToProtobuf snapCtr] :=
  sink_legacy_snapshot_fill.2.2.2 parentCtr ["s1"] [snapshotToProtobuf snapCtr] rfl

/-! ### Claim C1 — sink deletion and outcome announcement -/

/-- Every decided iteration of the sink's `select` loop deletes exactly on
error, announces truthfully when it announces, and announces exactly on
the restore-decided exit. -/
lemma sinkLoop_spec : ∀ (evs : List SinkLoopEvent) (o : SinkOutcome),
    sinkLoop evs = some o →
      (o.deleted = true ↔ o.result ≠ none)
      ∧ (∀ b, o.announced = some b → (b = true ↔ o.result = none))
      ∧ (o.announced.isSome ↔ o.exit = .restoreDone)
      ∧ (o.exit = .restoreDone ∨ o.exit = .sourceClosed ∨ o.exit = .sourceFailed ∨
          o.exit = .templateApply) := by
  intro evs
  induction evs with
  | nil => intro o h; simp [sinkLoop] at h
  | cons ev rest ih =>
    intro o h
    rcases ev with r | _ | ⟨b, m, t⟩
    · rcases r with _ | e <;>
        (injection h with h2; subst h2; simp)
    · injection h with h2; subst h2; simp
    · rcases b with _ | _
      · injection h with h2; subst h2; simp
      · rcases t with _ | e
        · exact ih o h
        · injection h with h2; subst h2; simp

/-- C1 (amended): the sink deletes the partially-created container exactly
when `Do` returns an error; any `MigrationControl` it sends on the return
path announces the actual outcome; and such a control message is sent
exactly on the exits other than a control-dial failure, a control-channel
close, a source-reported failure, or a template-apply failure. -/
theorem sink_delete_and_announce (env : SinkEnv) (o : SinkOutcome)
    (h : doSink env = some o) :
    (o.deleted = true ↔ o.result ≠ none)
    ∧ (∀ b, o.announced = some b → (b = true ↔ o.result = none))
    ∧ (o.announced.isSome ↔
        (o.exit ≠ .dialControl ∧ o.exit ≠ .sourceClosed ∧ o.exit ≠ .sourceFailed ∧
          o.exit ≠ .templateApply)) := by
  unfold doSink at h
  repeat' split at h
  all_goals
    first
      | (injection h with h2; subst h2; simp)
      | (obtain ⟨hd, hb, hs, he⟩ := sinkLoop_spec _ o h
         refine ⟨hd, hb, ?_⟩
         rw [hs]
         rcases he with h' | h' | h' | h' <;> rw [h'] <;> decide)

/-- Witness for `sink_delete_and_announce` on the all-success sink run. -/
theorem sink_delete_and_announce_witness :
    ((⟨none, false, some true, .restoreDone⟩ : SinkOutcome).deleted = true ↔
      (⟨none, false, some true, .restoreDone⟩ : SinkOutcome).result ≠ none) :=
  (sink_delete_and_announce sinkEnvOk ⟨none, false, some true, .restoreDone⟩
    (by decide)).1

/-- C1 counterexample: when the control dial fails, the sink deletes the
container and returns the error but sends **no** `MigrationControl`
announcing the outcome. -/
theorem sink_dial_control_cx :
    doSink sinkEnvCx =
      some ⟨some (.errorf "connection refused"), true, none, .dialControl⟩
    ∧ (doSink sinkEnvCx).map SinkOutcome.announced = some none
    ∧ (doSink sinkEnvCx).map SinkOutcome.result ≠ some none := by
  decide

/-! ### Claim C2 — source `Cleanup` accounting -/

lemma finishPhase_count (env : SourceEnv) (tr : List SEvent) :
    (finishPhase env tr).trace.count SEvent.cleanup = tr.count SEvent.cleanup + 1 := by
  unfold finishPhase
  rcases hr : env.recvFinalErr with _ | e
  · cases hs : env.finalMsg.success <;>
      simp [hr, hs, List.count_append, List.count_cons, List.count_nil, beq_iff_eq]
  · simp [hr, List.count_append, List.count_cons, List.count_nil, beq_iff_eq]

lemma dumpPhase_count_error (env : SourceEnv) (pre : List SEvent) (o : SourceOutcome)
    (h : dumpPhase env pre = .error o) :
    o.trace.count SEvent.cleanup = pre.count SEvent.cleanup + 1 := by
  unfold dumpPhase at h
  repeat' split at h
  all_goals
    first
      | (injection h with h2; subst h2;
         simp [abortSrc, List.count_append, List.count_cons, List.count_nil, beq_iff_eq])
      | exact absurd h (by simp)

lemma dumpPhase_count_ok (env : SourceEnv) (pre tr : List SEvent)
    (h : dumpPhase env pre = .ok tr) :
    tr.count SEvent.cleanup = pre.count SEvent.cleanup := by
  unfold dumpPhase at h
  repeat' split at h
  all_goals
    first
      | (injection h with h2; subst h2;
         simp [List.count_append, List.count_cons, List.count_nil, beq_iff_eq])
      | exact absurd h (by simp)

lemma livePhase_count_error (env : SourceEnv) (pre : List SEvent) (o : SourceOutcome)
    (h : livePhase env pre = .error o) :
    o.trace.count SEvent.cleanup = pre.count SEvent.cleanup + 1 := by
  unfold livePhase at h
  rcases hc : env.echoHeader.criu with _ | ct <;> simp only [hc] at h
  · injection h with h2; subst h2
    simp [abortSrc, List.count_append, List.count_cons, List.count_nil, beq_iff_eq]
  · by_cases hct : ct = CRIUType.CRIU_RSYNC
    · rw [if_pos hct] at h
      rcases ht : env.tempDirErr with _ | e <;> simp only [ht] at h
      · rcases hD : dumpPhase env pre with o' | tr <;> simp only [hD] at h
        · injection h with h2
          subst h2
          exact dumpPhase_count_error env pre o' hD
        · have htr := dumpPhase_count_ok env pre tr hD
          rcases hr : env.rsyncSendErr with _ | e <;> simp only [hr] at h
          · rcases ha : env.sendAfterCheckpointErr with _ | e <;> simp only [ha] at h
            · exact absurd h (by simp)
            · injection h with h2
              subst h2
              simp [abortSrc, List.count_append, List.count_cons, List.count_nil,
                beq_iff_eq, htr]
          · injection h with h2
            subst h2
            simp [abortSrc, List.count_append, List.count_cons, List.count_nil,
              beq_iff_eq, htr]
      · injection h with h2; subst h2
        simp [abortSrc, List.count_append, List.count_cons, List.count_nil, beq_iff_eq]
    · rw [if_neg hct] at h
      injection h with h2; subst h2
      simp [abortSrc, List.count_append, List.count_cons, List.count_nil, beq_iff_eq]

lemma livePhase_count_ok (env : SourceEnv) (pre tr : List SEvent)
    (h : livePhase env pre = .ok tr) :
    tr.count SEvent.cleanup = pre.count SEvent.cleanup := by
  unfold livePhase at h
  rcases hc : env.echoHeader.criu with _ | ct <;> simp only [hc] at h
  · exact absurd h (by simp)
  · by_cases hct : ct = CRIUType.CRIU_RSYNC
    · rw [if_pos hct] at h
      rcases ht : env.tempDirErr with _ | e <;> simp only [ht] at h
      · rcases hD : dumpPhase env pre with o' | tr' <;> simp only [hD] at h
        · exact absurd h (by simp)
        · have htr := dumpPhase_count_ok env pre tr' hD
          rcases hr : env.rsyncSendErr with _ | e <;> simp only [hr] at h
          · rcases ha : env.sendAfterCheckpointErr with _ | e <;> simp only [ha] at h
            · injection h with h2
              subst h2
              simp [List.count_append, List.count_cons, List.count_nil, beq_iff_eq, htr]
            · exact absurd h (by simp)
          · exact absurd h (by simp)
      · exact absurd h (by simp)
    · rw [if_neg hct] at h
      exact absurd h (by simp)

lemma doSourceBody_cleanup_once (env : SourceEnv) (o : SourceOutcome)
    (h : doSourceBody env = some o)
    (hid : env.idmapErr = none)
    (hm : env.migrationSourceErr = none)
    (hsh : env.sendHeaderErr = none)
    (hrh : env.recvHeaderErr = none) :
    o.trace.count SEvent.cleanup = 1 := by
  unfold doSourceBody at h
  simp only [hid, hm, hsh, hrh, reduceIte] at h
  rcases hb : buildSnapshotNames (env.driverSnapshots.map ContainerDesc.name)
    with _ | names <;> simp only [hb] at h
  · exact absurd h (by simp)
  · rcases hw : env.sendWhileRunningErr with _ | e <;> simp only [hw] at h
    · cases hl : env.live <;>
        simp only [hl, Bool.false_eq_true, reduceIte] at h
      · injection h with h2
        subst h2
        rw [finishPhase_count]
        simp [List.count_append, List.count_cons, List.count_nil, beq_iff_eq]
      · rcases hL : livePhase env
            [.sendHeader ⟨env.myType, some .CRIU_RSYNC,
                (env.idmapset.getD []).map idmapToWire, names,
                env.driverSnapshots.map snapshotToProtobuf⟩, .sendWhileRunning]
          with o' | tr <;> simp only [hL] at h
        · injection h with h2
          subst h2
          have := livePhase_count_error env _ o' hL
          simpa [List.count_cons, List.count_nil, beq_iff_eq] using this
        · injection h with h2
          subst h2
          have htr := livePhase_count_ok env _ tr hL
          rw [finishPhase_count, htr]
          simp [List.count_cons, List.count_nil, beq_iff_eq]
    · injection h with h2
      subst h2
      simp [abortSrc, List.count_append, List.count_cons, List.count_nil, beq_iff_eq]

/-- C2 (amended): on every run in which the storage driver was obtained
**and** both the opening header send and the echo receive succeed,
`Cleanup()` is called exactly once, whether `Do` then succeeds or fails.
(When the header send or the echo receive fails after the driver was
obtained, no `Cleanup` happens — see the counterexample.) -/
theorem source_cleanup_once (env : SourceEnv) (o : SourceOutcome)
    (h : doSource env = some o)
    (hss : env.live = true ∨ env.storageStartErr = none)
    (hid : env.idmapErr = none)
    (hm : env.migrationSourceErr = none)
    (hsh : env.sendHeaderErr = none)
    (hrh : env.recvHeaderErr = none) :
    o.trace.count SEvent.cleanup = 1 := by
  unfold doSource at h
  cases hl : env.live <;> rw [hl] at h <;>
    simp only [Bool.false_eq_true, reduceIte] at h
  · rcases hss with hss | hss
    · rw [hl] at hss; exact absurd hss (by simp)
    · rw [hss] at h
      rcases hbody : doSourceBody env with _ | o' <;> rw [hbody] at h
      · exact absurd h (by simp)
      · simp only [Option.map_some'] at h
        injection h with h2
        subst h2
        have := doSourceBody_cleanup_once env o' hbody hid hm hsh hrh
        simpa [List.count_append, List.count_cons, List.count_nil, beq_iff_eq]
          using this
  · exact doSourceBody_cleanup_once env o h hid hm hsh hrh

/-- Witness for `source_cleanup_once` on the all-success non-live run. -/
theorem source_cleanup_once_witness :
    (doSource srcEnvOk).map (fun o => o.trace.count SEvent.cleanup) = some 1 := by
  rcases h : doSource srcEnvOk with _ | o
  · exact absurd h (by decide)
  · rw [Option.map_some']
    exact congrArg some
      (source_cleanup_once srcEnvOk o h (Or.inr rfl) rfl rfl rfl rfl)

/-- C2 counterexample: when the opening header send fails, the storage
driver was already successfully obtained (`migrationSourceErr = none`) and
`Do` returns the send error, yet `Cleanup` is called zero times, not
once. -/
theorem source_cleanup_skipped_cx :
    (doSource srcEnvHdrFail).map (fun o => o.trace.count SEvent.cleanup) = some 0
    ∧ srcEnvHdrFail.migrationSourceErr = none
    ∧ (doSource srcEnvHdrFail).map SourceOutcome.result =
        some (some (.errorf "broken pipe")) := by
  decide

/-! ### Claim C6 — header is sent even when the storage driver fails -/

/-- C6: when obtaining the storage driver fails (and the header send
itself succeeds), the source still sends a complete opening header with
its preferred fs type, its idmap, and empty snapshot lists, then
immediately sends a control failure carrying the driver error, and `Do`
returns that same error. -/
theorem source_header_on_driver_failure (env : SourceEnv) (e : GoError) :
    doSource { env with storageStartErr := none, idmapErr := none,
                        migrationSourceErr := some e, sendHeaderErr := none } =
      some ⟨some e,
        (if env.live then ([] : List SEvent) else [.storageStart]) ++
          [.sendHeader ⟨env.myType, if env.live then some .CRIU_RSYNC else none,
              (env.idmapset.getD []).map idmapToWire, [], []⟩,
            .sendControl (some e)] ++
          (if env.live then [] else [.storageStop])⟩ := by
  cases hl : env.live <;>
    simp [doSource, doSourceBody, hl]

/-! ### Claim C7 — live migration with a bad echoed checkpoint type aborts -/

/-- C7: on a live source run where everything up to the filesystem stream
succeeds, an echoed header with no criu type — or with a criu type other
than CRIU_RSYNC — makes the source abort before any checkpoint is taken:
the trace ends with `cleanup` and a control failure (no `migrateDump`
event), and `Do` returns the error. -/
theorem source_live_criu_mismatch_aborts (env : SourceEnv) (names : List String)
    (hb : buildSnapshotNames (env.driverSnapshots.map ContainerDesc.name) = some names) :
    (doSource { env with
                  live := true, idmapErr := none, migrationSourceErr := none,
                  sendHeaderErr := none, recvHeaderErr := none,
                  sendWhileRunningErr := none,
                  echoHeader := { env.echoHeader with criu := none } } =
      some ⟨some (.errorf "Got no CRIU socket type for live migration"),
        [.sendHeader ⟨env.myType, some .CRIU_RSYNC,
            (env.idmapset.getD []).map idmapToWire, names,
            env.driverSnapshots.map snapshotToProtobuf⟩,
          .sendWhileRunning, .cleanup,
          .sendControl (some (.errorf "Got no CRIU socket type for live migration"))]⟩)
    ∧ (∀ ct : CRIUType, ct ≠ .CRIU_RSYNC →
        doSource { env with
                     live := true, idmapErr := none, migrationSourceErr := none,
                     sendHeaderErr := none, recvHeaderErr := none,
                     sendWhileRunningErr := none,
                     echoHeader := { env.echoHeader with criu := some ct } } =
          some ⟨some (.errorf "Formats other than criu rsync not understood"),
            [.sendHeader ⟨env.myType, some .CRIU_RSYNC,
                (env.idmapset.getD []).map idmapToWire, names,
                env.driverSnapshots.map snapshotToProtobuf⟩,
              .sendWhileRunning, .cleanup,
              .sendControl (some (.errorf "Formats other than criu rsync not understood"))]⟩) := by
  constructor
  · simp [doSource, doSourceBody, livePhase, abortSrc, hb]
  · intro ct hct
    simp [doSource, doSourceBody, livePhase, abortSrc, hb, hct]

/-- Witness for `source_live_criu_mismatch_aborts`: a concrete live run
whose echoed header carries `criu = PHAUL`. -/
theorem source_live_criu_mismatch_aborts_witness :
    doSource { srcEnvNoSnaps with
                 live := true, idmapErr := none, migrationSourceErr := none,
                 sendHeaderErr := none, recvHeaderErr := none,
                 sendWhileRunningErr := none,
                 echoHeader := { srcEnvNoSnaps.echoHeader with criu := some .PHAUL } } =
      some ⟨some (.errorf "Formats other than criu rsync not understood"),
        [.sendHeader ⟨srcEnvNoSnaps.myType, some .CRIU_RSYNC,
            (srcEnvNoSnaps.idmapset.getD []).map idmapToWire, [],
            srcEnvNoSnaps.driverSnapshots.map snapshotToProtobuf⟩,
          .sendWhileRunning, .cleanup,
          .sendControl (some (.errorf "Formats other than criu rsync not understood"))]⟩ :=
  (source_live_criu_mismatch_aborts srcEnvNoSnaps [] (by decide)).2 .PHAUL (by decide)

end LXDMigration
